import Mathlib

/-!
Shallow embedding of the handler-adaptation layer of the XrdCl client
(`src/XrdCl/XrdClOperationHandlers.hh`).  Each C++ handler method is
translated into a Lean function that returns an explicit record of its
observable effects: which callbacks it invoked and with which arguments,
which heap objects it deleted, and how it resolved the linked promise.
Machine state that the C++ code mutates (the `called` flag, the promise)
is passed explicitly.
-/

/-- Modelled from the spec: the status-class constant `stOK` lives in the
client's status header (`XrdClStatus.hh`), which is absent from the sources;
the spec only distinguishes success from failure. -/
def stOK : Nat := 0

/-- Modelled from the spec: the status-class constant `stError` from the
absent status header; distinct from `stOK`. -/
def stError : Nat := 1

/-- Modelled from the spec: the error code `errPipelineFailed` from the
absent status header, the fixed "pipeline aborted" code. -/
def errPipelineFailed : Nat := 2

/-- Modelled from the spec: `XRootDStatus` (absent status header) is a
status class together with an error code; an outcome status is
"success/failure code + message", and the adapters only copy it and test
success. -/
structure XRootDStatus where
  st : Nat
  code : Nat
  errNo : Nat
deriving DecidableEq, Repr

/-- Modelled from the spec: `XRootDStatus::IsOK`, true exactly when the
status class is `stOK`. -/
def XRootDStatus.IsOK (s : XRootDStatus) : Bool := s.st == stOK

/-- `PipelineException` wraps an `XRootDStatus` (lines 488-539 of the
source header): the transportable Failure Value. -/
structure PipelineException where
  error : XRootDStatus
deriving DecidableEq, Repr

/-- Host metadata handed to `HandleResponseWithHosts`; its content is
external to this layer, the adapters only delete or forward the pointer. -/
structure HostEntryData where
  tag : Nat
deriving DecidableEq, Repr

/-- A `HostList *` argument: possibly null pointer to host metadata. -/
abbrev HostListPtr := Option (List HostEntryData)

/-! ## Forwarding Container and Operation Context -/

/-- Missing-key failure of a container lookup. -/
inductive ContainerError where
  | missingKey
deriving DecidableEq, Repr

/-- Modelled from the spec: `ArgsContainer` (absent from the sources; only
its caller `ForwardingHandler::FwdArg` is in the header) is "a mapping from
a (type-tag, integer bucket) pair to an owned value. Keys are unique per
(type, bucket); re-setting a key overwrites."  Type tags stand for the C++
argument types, values are abstracted to their encodings. -/
structure ArgsContainer where
  entries : List ((Nat × Int) × Nat)
deriving DecidableEq, Repr

/-- The fresh, empty container a `ForwardingHandler` constructor allocates. -/
def ArgsContainer.empty : ArgsContainer := ⟨[]⟩

/-- Modelled from the spec: `set(type, bucket, value)` stores ownership of
`value`; re-setting a key overwrites. -/
def ArgsContainer.SetArg (c : ArgsContainer) (tag : Nat) (bucket : Int)
    (v : Nat) : ArgsContainer :=
  ⟨((tag, bucket), v) :: c.entries.filter (fun e => !(e.1 == (tag, bucket)))⟩

/-- Modelled from the spec: `get(type, bucket)` returns the stored value or
fails with a missing-key error, never an uninitialized value. -/
def ArgsContainer.GetArg (c : ArgsContainer) (tag : Nat) (bucket : Int) :
    Except ContainerError Nat :=
  match c.entries.lookup (tag, bucket) with
  | some v => .ok v
  | none => .error .missingKey

/-- Modelled from the spec: `OperationContext` is a non-owning view
borrowing a share of a Forwarding Container, exposing typed lookup by
bucket. -/
structure OperationContext where
  container : ArgsContainer
deriving DecidableEq, Repr

/-- Modelled from the spec: context lookup delegates to the borrowed
Forwarding Container. -/
def OperationContext.GetArg (ctx : OperationContext) (tag : Nat)
    (bucket : Int) : Except ContainerError Nat :=
  ctx.container.GetArg tag bucket

/-- `ForwardingHandler::FwdArg<T>(value, bucket)` (source lines 79-83):
saves the value in the handler's own container; the bucket defaults to 1. -/
def ForwardingHandler.FwdArg (c : ArgsContainer) (tag : Nat) (v : Nat)
    (bucket : Int := 1) : ArgsContainer :=
  c.SetArg tag bucket v

/-- `ForwardingHandler::GetOperationContext` (source lines 105-109): wraps
the handler's container in a fresh `OperationContext`. -/
def ForwardingHandler.GetOperationContext (c : ArgsContainer) :
    OperationContext :=
  ⟨c⟩

/-! ## Base Completion Sink (`ForwardingHandler`) -/

/-- Observable effects of one delivery to the base `ForwardingHandler`. -/
structure BaseDelivery where
  callbacksInvoked : Nat
  hostListDeleted : Bool
  statusDeleted : Bool
  responseDeleted : Bool
  selfDeleted : Bool
deriving DecidableEq, Repr

/-- `ForwardingHandler::HandleResponse` (source lines 64-69): deletes the
status, the response and the handler itself; invokes no callback. -/
def ForwardingHandler.HandleResponse {α : Type} (_status : XRootDStatus)
    (_response : Option α) : BaseDelivery :=
  { callbacksInvoked := 0
    hostListDeleted := false
    statusDeleted := true
    responseDeleted := true
    selfDeleted := true }

/-- `ForwardingHandler::HandleResponseWithHosts` (source lines 54-59):
deletes the host list, then forwards status and response to
`HandleResponse`. -/
def ForwardingHandler.HandleResponseWithHosts {α : Type}
    (status : XRootDStatus) (response : Option α) (_hostList : HostListPtr) :
    BaseDelivery :=
  { ForwardingHandler.HandleResponse status response with
    hostListDeleted := true }

/-! ## Object-Sink Adapter (`WrappingHandler`) -/

/-- Which of the two completion entry points was used. -/
inductive EntryPoint where
  | withHosts
  | plain
deriving DecidableEq, Repr

/-- One call forwarded to the wrapped `ResponseHandler`: entry point,
status pointer, response pointer and (for the host variant) host list
pointer, exactly as received. -/
structure ForwardedCall (α : Type) where
  entry : EntryPoint
  status : XRootDStatus
  response : Option α
  hostList : HostListPtr
deriving DecidableEq, Repr

/-- Observable effects of one delivery to a `WrappingHandler`. -/
structure WrapDelivery (α : Type) where
  forwarded : List (ForwardedCall α)
  selfDeleted : Bool
  wrappedDeleted : Bool
  statusDeletedByAdapter : Bool
  responseDeletedByAdapter : Bool
  hostListDeletedByAdapter : Bool
deriving DecidableEq, Repr

/-- `WrappingHandler::HandleResponseWithHosts` (source lines 168-173):
forwards status, response and host list unchanged to the wrapped handler's
`HandleResponseWithHosts`, then deletes itself only. -/
def WrappingHandler.HandleResponseWithHosts {α : Type}
    (status : XRootDStatus) (response : Option α) (hostList : HostListPtr) :
    WrapDelivery α :=
  { forwarded := [⟨.withHosts, status, response, hostList⟩]
    selfDeleted := true
    wrappedDeleted := false
    statusDeletedByAdapter := false
    responseDeletedByAdapter := false
    hostListDeletedByAdapter := false }

/-- `WrappingHandler::HandleResponse` (source lines 178-182): forwards
status and response unchanged to the wrapped handler's `HandleResponse`,
then deletes itself only. -/
def WrappingHandler.HandleResponse {α : Type} (status : XRootDStatus)
    (response : Option α) : WrapDelivery α :=
  { forwarded := [⟨.plain, status, response, none⟩]
    selfDeleted := true
    wrappedDeleted := false
    statusDeletedByAdapter := false
    responseDeletedByAdapter := false
    hostListDeletedByAdapter := false }

/-! ## Theorems for the base sink and the object-sink adapter -/

/-- C9: the base Completion Sink (`ForwardingHandler`) is a no-op terminal
sink: its host-metadata entry point deletes the host metadata and forwards
the status and response to the plain entry point, and the plain entry
point deletes the status, the response and the sink itself, invoking no
callback. -/
theorem forwardingHandler_default_noop_terminal_sink {α : Type}
    (status : XRootDStatus) (response : Option α) (hostList : HostListPtr) :
    ForwardingHandler.HandleResponseWithHosts status response hostList
      = { ForwardingHandler.HandleResponse status response with
          hostListDeleted := true }
    ∧ ForwardingHandler.HandleResponse status response
      = { callbacksInvoked := 0, hostListDeleted := false,
          statusDeleted := true, responseDeleted := true,
          selfDeleted := true }
    ∧ ForwardingHandler.HandleResponseWithHosts status response hostList
      = { callbacksInvoked := 0, hostListDeleted := true,
          statusDeleted := true, responseDeleted := true,
          selfDeleted := true } :=
  ⟨rfl, rfl, rfl⟩

/-- C8: on each delivery, `WrappingHandler` forwards the call — status,
response and host metadata — unchanged to the wrapped handler via the same
entry point that was invoked, deletes only itself, and never deletes the
wrapped handler, the status, the response or the host list. -/
theorem wrappingHandler_forwards_unchanged_deletes_only_self {α : Type}
    (status : XRootDStatus) (response : Option α) (hostList : HostListPtr) :
    WrappingHandler.HandleResponseWithHosts status response hostList
      = { forwarded := [⟨.withHosts, status, response, hostList⟩],
          selfDeleted := true, wrappedDeleted := false,
          statusDeletedByAdapter := false,
          responseDeletedByAdapter := false,
          hostListDeletedByAdapter := false }
    ∧ WrappingHandler.HandleResponse status response
      = { forwarded := [⟨.plain, status, response, none⟩],
          selfDeleted := true, wrappedDeleted := false,
          statusDeletedByAdapter := false,
          responseDeletedByAdapter := false,
          hostListDeletedByAdapter := false } :=
  ⟨rfl, rfl⟩

/-! ## Callback-Idiom Adapter Family -/

/-- The response reference an adapter passes to a callable that takes a
response parameter: either the dereferenced outcome payload, the shared
static `nullref` placeholder, or a dereference of a null pointer (the
undefined case where `AnyObject::Get` found no value of the right type). -/
inductive RespArg (R : Type) where
  | payload (r : R)
  | nullref
  | nullDeref
deriving DecidableEq, Repr

/-- Observable effects of one delivery to `SimpleFunctionWrapper` or
`SimpleForwardingFunctionWrapper`: the invocations of the stored callable
(status, and the context for the forwarding variant) plus the deletions. -/
structure SimpleFnDelivery where
  calls : List (XRootDStatus × Option OperationContext)
  statusDeleted : Bool
  responseDeleted : Bool
  selfDeleted : Bool
deriving DecidableEq, Repr

/-- `SimpleFunctionWrapper::HandleResponse` (source lines 213-219): invokes
the stored callable with the dereferenced status, then deletes the status,
the response and itself. -/
def SimpleFunctionWrapper.HandleResponse {α : Type} (status : XRootDStatus)
    (_response : Option α) : SimpleFnDelivery :=
  { calls := [(status, none)]
    statusDeleted := true
    responseDeleted := true
    selfDeleted := true }

/-- `SimpleForwardingFunctionWrapper::HandleResponse` (source lines
298-305): invokes the stored callable with the dereferenced status and a
fresh `OperationContext` over the handler's own container, then deletes the
status, the response and itself. -/
def SimpleForwardingFunctionWrapper.HandleResponse {α : Type}
    (container : ArgsContainer) (status : XRootDStatus)
    (_response : Option α) : SimpleFnDelivery :=
  { calls := [(status, some (ForwardingHandler.GetOperationContext container))]
    statusDeleted := true
    responseDeleted := true
    selfDeleted := true }

/-- Observable effects of one delivery to `FunctionWrapper<R>`: the
invocations of the stored two-argument callable and the deletions. -/
structure FnDelivery (R : Type) where
  calls : List (XRootDStatus × RespArg R)
  statusDeleted : Bool
  responseDeleted : Bool
  selfDeleted : Bool
deriving DecidableEq, Repr

/-- `FunctionWrapper<R>::HandleResponse` (source lines 252-263): if the
status is OK, extract the typed payload from the outcome via
`AnyObject::Get` (a null pointer results if no such payload is held),
otherwise substitute the static `nullref` placeholder; invoke the callable
with the status and that response reference; delete the status, the
response and itself. -/
def FunctionWrapper.HandleResponse {R : Type} (status : XRootDStatus)
    (response : Option R) : FnDelivery R :=
  let res : RespArg R :=
    if status.IsOK then
      match response with
      | some r => .payload r
      | none => .nullDeref
    else .nullref
  { calls := [(status, res)]
    statusDeleted := true
    responseDeleted := true
    selfDeleted := true }

/-- Observable effects of one delivery to `ForwardingFunctionWrapper<R>`:
the invocations of the stored three-argument callable and the deletions. -/
structure FwdFnDelivery (R : Type) where
  calls : List (XRootDStatus × RespArg R × OperationContext)
  statusDeleted : Bool
  responseDeleted : Bool
  selfDeleted : Bool
deriving DecidableEq, Repr

/-- `ForwardingFunctionWrapper<R>::HandleResponse` (source lines 343-355):
same response extraction as `FunctionWrapper`, then invokes the callable
with the status, the response reference and a fresh `OperationContext`
over the handler's own container; deletes the status, the response and
itself. -/
def ForwardingFunctionWrapper.HandleResponse {R : Type}
    (container : ArgsContainer) (status : XRootDStatus)
    (response : Option R) : FwdFnDelivery R :=
  let res : RespArg R :=
    if status.IsOK then
      match response with
      | some r => .payload r
      | none => .nullDeref
    else .nullref
  { calls := [(status, res, ForwardingHandler.GetOperationContext container)]
    statusDeleted := true
    responseDeleted := true
    selfDeleted := true }

/-- C2: for every callable shape — status-only, status+response,
status+response+context, status+context — delivering a success outcome
whose payload holds response `r` invokes the callable exactly once, with
the success status and with a response argument equal to the payload `r`
(for the shapes that take one), and then the adapter deletes the outcome
(status and response) and itself. -/
theorem callable_shapes_success_invoke_once_with_payload {R : Type}
    (status : XRootDStatus) (r : R) (container : ArgsContainer)
    (hok : status.IsOK = true) :
    FunctionWrapper.HandleResponse status (some r)
      = { calls := [(status, .payload r)], statusDeleted := true,
          responseDeleted := true, selfDeleted := true }
    ∧ ForwardingFunctionWrapper.HandleResponse container status (some r)
      = { calls := [(status, .payload r,
            ForwardingHandler.GetOperationContext container)],
          statusDeleted := true, responseDeleted := true,
          selfDeleted := true }
    ∧ SimpleFunctionWrapper.HandleResponse status (some r)
      = { calls := [(status, none)], statusDeleted := true,
          responseDeleted := true, selfDeleted := true }
    ∧ SimpleForwardingFunctionWrapper.HandleResponse container status (some r)
      = { calls := [(status,
            some (ForwardingHandler.GetOperationContext container))],
          statusDeleted := true, responseDeleted := true,
          selfDeleted := true } := by
  refine ⟨?_, ?_, rfl, rfl⟩ <;>
    simp [FunctionWrapper.HandleResponse,
      ForwardingFunctionWrapper.HandleResponse, hok]

/-- Closed witness for C2: delivery of a success status carrying integer
payload 5 to each callable shape. -/
theorem callable_shapes_success_witness :
    (XRootDStatus.mk stOK 0 0).IsOK = true
    ∧ FunctionWrapper.HandleResponse (XRootDStatus.mk stOK 0 0) (some 5)
      = { calls := [(XRootDStatus.mk stOK 0 0, .payload 5)],
          statusDeleted := true, responseDeleted := true,
          selfDeleted := true } :=
  ⟨by decide,
    (callable_shapes_success_invoke_once_with_payload
      (XRootDStatus.mk stOK 0 0) 5 ArgsContainer.empty (by decide)).1⟩

/-- C3: for the adapters whose callable takes a response parameter,
delivering a failure outcome invokes the callable with the shared
`nullref` placeholder — never with a null dereference and never with the
outcome's payload — whatever the payload of the outcome was. -/
theorem callable_shapes_failure_substitute_nullref {R : Type}
    (status : XRootDStatus) (response : Option R)
    (container : ArgsContainer) (hfail : status.IsOK = false) :
    (FunctionWrapper.HandleResponse status response).calls
      = [(status, .nullref)]
    ∧ (ForwardingFunctionWrapper.HandleResponse container status
        response).calls
      = [(status, .nullref,
          ForwardingHandler.GetOperationContext container)]
    ∧ (∀ r : R, RespArg.nullref ≠ RespArg.payload r)
    ∧ RespArg.nullref ≠ (RespArg.nullDeref : RespArg R) := by
  refine ⟨?_, ?_, fun r => by simp, by simp⟩ <;>
    simp [FunctionWrapper.HandleResponse,
      ForwardingFunctionWrapper.HandleResponse, hfail]

/-- Closed witness for C3: a failure delivery whose outcome still carries
payload 9 reaches the callable with the placeholder, not the payload. -/
theorem callable_shapes_failure_witness :
    (XRootDStatus.mk stError 3 0).IsOK = false
    ∧ (FunctionWrapper.HandleResponse (XRootDStatus.mk stError 3 0)
        (some 9)).calls = [(XRootDStatus.mk stError 3 0, .nullref)] :=
  ⟨by decide,
    (callable_shapes_failure_substitute_nullref
      (XRootDStatus.mk stError 3 0) (some 9) ArgsContainer.empty
      (by decide)).1⟩

/-! ## Open+Metadata Adapters (`ExOpenFuncWrapper`,
`ForwardingExOpenFuncWrapper`) -/

/-- Stat metadata; its fields are external to this layer, the adapters
only pass the object through and free it. -/
structure StatInfo where
  id : Nat
deriving DecidableEq, Repr

/-- Behaviour of the synchronous metadata fetch `File::Stat(false, info)`
of the file the adapter holds: the status the fetch returns and the
`StatInfo` allocation it stores through the out parameter (`none` when it
leaves the pointer null).  `File` is an external collaborator, so the
fetch's behaviour is an input of the model. -/
structure StatFetch where
  retStatus : XRootDStatus
  alloc : Option StatInfo
deriving DecidableEq, Repr

/-- The `StatInfo` reference passed to the stored callable: the fetch's
separately allocated result, the shared static `nullref` placeholder, or a
dereference of the null pointer a failed fetch left in place. -/
inductive StatArg where
  | fetched (si : StatInfo)
  | nullref
  | nullDeref
deriving DecidableEq, Repr

/-- True when `info != &nullref`, the guard of the adapter's `delete info`
statement (`delete` of a null pointer is a no-op, so `nullDeref` still
executes the statement but frees nothing). -/
def StatArg.distinctFromPlaceholder : StatArg → Bool
  | .fetched _ => true
  | .nullref => false
  | .nullDeref => true

/-- True when the `delete info` statement actually frees a fetched
allocation. -/
def StatArg.isFetched : StatArg → Bool
  | .fetched _ => true
  | _ => false

/-- Observable effects of one delivery to `ExOpenFuncWrapper`: how many
times `File::Stat` ran, the single callable invocation (status and
`StatInfo` reference, plus the context for the forwarding variant),
whether the guarded `delete info` ran, whether a fetched allocation was
freed, and the outcome deletions. -/
structure ExOpenDelivery where
  statCalls : Nat
  calls : List (XRootDStatus × StatArg × Option OperationContext)
  infoDeleteExecuted : Bool
  infoFreed : Bool
  statusDeleted : Bool
  responseDeleted : Bool
  selfDeleted : Bool
deriving DecidableEq, Repr

/-- `ExOpenFuncWrapper::HandleResponse` (source lines 398-410): on an OK
open status run `f.Stat(false, info)` once (its returned status is not
inspected), otherwise point `info` at the static `nullref`; invoke the
callable with the open status and `*info`; `delete info` unless it is the
placeholder; delete the status, the response and itself. -/
def ExOpenFuncWrapper.HandleResponse (fetch : StatFetch)
    (status : XRootDStatus) {α : Type} (_response : Option α) :
    ExOpenDelivery :=
  let info : StatArg :=
    if status.IsOK then
      match fetch.alloc with
      | some si => .fetched si
      | none => .nullDeref
    else .nullref
  { statCalls := if status.IsOK then 1 else 0
    calls := [(status, info, none)]
    infoDeleteExecuted := info.distinctFromPlaceholder
    infoFreed := info.isFetched
    statusDeleted := true
    responseDeleted := true
    selfDeleted := true }

/-- `ForwardingExOpenFuncWrapper::HandleResponse` (source lines 452-465):
as `ExOpenFuncWrapper::HandleResponse` but the callable also receives a
fresh `OperationContext` over the handler's own container. -/
def ForwardingExOpenFuncWrapper.HandleResponse (fetch : StatFetch)
    (container : ArgsContainer) (status : XRootDStatus) {α : Type}
    (_response : Option α) : ExOpenDelivery :=
  let info : StatArg :=
    if status.IsOK then
      match fetch.alloc with
      | some si => .fetched si
      | none => .nullDeref
    else .nullref
  { statCalls := if status.IsOK then 1 else 0
    calls := [(status, info,
      some (ForwardingHandler.GetOperationContext container))]
    infoDeleteExecuted := info.distinctFromPlaceholder
    infoFreed := info.isFetched
    statusDeleted := true
    responseDeleted := true
    selfDeleted := true }

/-- C5: in both Open+Metadata adapters, a failed open never invokes
`File::Stat` and substitutes the placeholder (which is then not deleted);
a successful open invokes the fetch exactly once, the callable receives
the fetch's separately allocated result, and that result is freed exactly
once — the `delete info` statement runs if and only if the reference is
distinct from the placeholder. -/
theorem exOpen_stat_fired_only_on_success_result_freed_once
    (fetch : StatFetch) (status : XRootDStatus) (si : StatInfo)
    (container : ArgsContainer) {α : Type} (response : Option α)
    (halloc : fetch.alloc = some si) :
    (status.IsOK = false →
      ExOpenFuncWrapper.HandleResponse fetch status response
        = { statCalls := 0, calls := [(status, .nullref, none)],
            infoDeleteExecuted := false, infoFreed := false,
            statusDeleted := true, responseDeleted := true,
            selfDeleted := true }
      ∧ ForwardingExOpenFuncWrapper.HandleResponse fetch container status
          response
        = { statCalls := 0,
            calls := [(status, .nullref,
              some (ForwardingHandler.GetOperationContext container))],
            infoDeleteExecuted := false, infoFreed := false,
            statusDeleted := true, responseDeleted := true,
            selfDeleted := true })
    ∧ (status.IsOK = true →
      ExOpenFuncWrapper.HandleResponse fetch status response
        = { statCalls := 1, calls := [(status, .fetched si, none)],
            infoDeleteExecuted := true, infoFreed := true,
            statusDeleted := true, responseDeleted := true,
            selfDeleted := true }
      ∧ ForwardingExOpenFuncWrapper.HandleResponse fetch container status
          response
        = { statCalls := 1,
            calls := [(status, .fetched si,
              some (ForwardingHandler.GetOperationContext container))],
            infoDeleteExecuted := true, infoFreed := true,
            statusDeleted := true, responseDeleted := true,
            selfDeleted := true })
    ∧ ((ExOpenFuncWrapper.HandleResponse fetch status
          response).infoDeleteExecuted = true
        ↔ ∀ e ∈ (ExOpenFuncWrapper.HandleResponse fetch status
            response).calls, e.2.1.distinctFromPlaceholder = true) := by
  refine ⟨fun hfail => ?_, fun hok => ?_, ?_⟩
  · constructor <;>
      simp [ExOpenFuncWrapper.HandleResponse,
        ForwardingExOpenFuncWrapper.HandleResponse, hfail,
        StatArg.distinctFromPlaceholder, StatArg.isFetched]
  · constructor <;>
      simp [ExOpenFuncWrapper.HandleResponse,
        ForwardingExOpenFuncWrapper.HandleResponse, hok, halloc,
        StatArg.distinctFromPlaceholder, StatArg.isFetched]
  · cases hc : status.IsOK <;>
      simp [ExOpenFuncWrapper.HandleResponse, hc, halloc,
        StatArg.distinctFromPlaceholder]

/-- Closed witness for C5: a fetch that allocates `StatInfo 4`, exercised
on a failed and on a successful open status. -/
theorem exOpen_stat_witness :
    ((StatFetch.mk (XRootDStatus.mk stOK 0 0) (some (StatInfo.mk 4))).alloc
      = some (StatInfo.mk 4))
    ∧ ((XRootDStatus.mk stError 3 0).IsOK = false →
        (ExOpenFuncWrapper.HandleResponse
          (StatFetch.mk (XRootDStatus.mk stOK 0 0) (some (StatInfo.mk 4)))
          (XRootDStatus.mk stError 3 0) (none : Option Nat)).statCalls = 0)
    ∧ ((XRootDStatus.mk stOK 0 0).IsOK = true →
        (ExOpenFuncWrapper.HandleResponse
          (StatFetch.mk (XRootDStatus.mk stOK 0 0) (some (StatInfo.mk 4)))
          (XRootDStatus.mk stOK 0 0) (none : Option Nat)).statCalls = 1) :=
  ⟨rfl,
    fun hfail => by
      have h := (exOpen_stat_fired_only_on_success_result_freed_once
        (StatFetch.mk (XRootDStatus.mk stOK 0 0) (some (StatInfo.mk 4)))
        (XRootDStatus.mk stError 3 0) (StatInfo.mk 4) ArgsContainer.empty
        (none : Option Nat) rfl).1 hfail
      rw [h.1],
    fun hok => by
      have h := (exOpen_stat_fired_only_on_success_result_freed_once
        (StatFetch.mk (XRootDStatus.mk stOK 0 0) (some (StatInfo.mk 4)))
        (XRootDStatus.mk stOK 0 0) (StatInfo.mk 4) ArgsContainer.empty
        (none : Option Nat) rfl).2.1 hok
      rw [h.1]⟩

/-- C10: on a successful open, the status handed to the callable is always
the original open status — the delivery does not depend on the status the
metadata fetch returned — and when the fetch fails to allocate a result
the callable still receives whatever pointer the fetch produced (here the
null pointer it left in place). -/
theorem exOpen_callback_status_ignores_fetch_status
    (fetchA fetchB : StatFetch) (status : XRootDStatus)
    (container : ArgsContainer) {α : Type} (response : Option α)
    (hok : status.IsOK = true)
    (hsame : fetchA.alloc = fetchB.alloc) :
    ExOpenFuncWrapper.HandleResponse fetchA status response
      = ExOpenFuncWrapper.HandleResponse fetchB status response
    ∧ ForwardingExOpenFuncWrapper.HandleResponse fetchA container status
        response
      = ForwardingExOpenFuncWrapper.HandleResponse fetchB container status
        response
    ∧ (∀ e ∈ (ExOpenFuncWrapper.HandleResponse fetchA status
        response).calls, e.1 = status)
    ∧ (fetchA.alloc = none →
        (ExOpenFuncWrapper.HandleResponse fetchA status response).calls
          = [(status, .nullDeref, none)]) := by
  refine ⟨?_, ?_, ?_, fun hnone => ?_⟩
  · simp [ExOpenFuncWrapper.HandleResponse, hsame]
  · simp [ForwardingExOpenFuncWrapper.HandleResponse, hsame]
  · cases hc : fetchA.alloc <;>
      simp [ExOpenFuncWrapper.HandleResponse, hok, hc]
  · simp [ExOpenFuncWrapper.HandleResponse, hok, hnone]

/-- Closed witness for C10: a successful open whose metadata fetch returns
a failure status and allocates nothing still hands the callable the
success status of the open. -/
theorem exOpen_callback_status_witness :
    (XRootDStatus.mk stOK 0 0).IsOK = true
    ∧ ((StatFetch.mk (XRootDStatus.mk stError 9 0) none).alloc
        = (StatFetch.mk (XRootDStatus.mk stOK 0 0) none).alloc)
    ∧ (ExOpenFuncWrapper.HandleResponse
        (StatFetch.mk (XRootDStatus.mk stError 9 0) none)
        (XRootDStatus.mk stOK 0 0) (none : Option Nat)
      = ExOpenFuncWrapper.HandleResponse
        (StatFetch.mk (XRootDStatus.mk stOK 0 0) none)
        (XRootDStatus.mk stOK 0 0) (none : Option Nat)) :=
  ⟨by decide, rfl,
    (exOpen_callback_status_ignores_fetch_status
      (StatFetch.mk (XRootDStatus.mk stError 9 0) none)
      (StatFetch.mk (XRootDStatus.mk stOK 0 0) none)
      (XRootDStatus.mk stOK 0 0) ArgsContainer.empty
      (none : Option Nat) (by decide) rfl).1⟩

/-! ## Future Bridge (`FutureWrapperBase`, `FutureWrapper`) -/

/-- Resolution state of the `std::promise` linked to the paired future. -/
inductive PromiseState (R : Type) where
  | pending
  | value (r : R)
  | exn (e : PipelineException)
deriving DecidableEq, Repr

/-- A `std::promise<R>`: its resolution state, plus a flag recording an
attempt to satisfy an already-satisfied promise (which `std::promise`
reports by throwing `std::future_error`). -/
structure Promise (R : Type) where
  state : PromiseState R
  doubleResolve : Bool
deriving DecidableEq, Repr

/-- The fresh promise made by the `FutureWrapperBase` constructor, whose
future is handed back to the caller. -/
def Promise.fresh {R : Type} : Promise R := ⟨.pending, false⟩

/-- `std::promise::set_value`. -/
def Promise.setValue {R : Type} (p : Promise R) (r : R) : Promise R :=
  match p.state with
  | .pending => { p with state := .value r }
  | _ => { p with doubleResolve := true }

/-- `std::promise::set_exception`. -/
def Promise.setExn {R : Type} (p : Promise R) (e : PipelineException) :
    Promise R :=
  match p.state with
  | .pending => { p with state := .exn e }
  | _ => { p with doubleResolve := true }

/-- Mutable state of a `FutureWrapperBase<R>`: its promise and the
`called` flag (`false` at construction, source line 557). -/
structure FWState (R : Type) where
  prms : Promise R
  called : Bool
deriving DecidableEq, Repr

/-- The state the `FutureWrapperBase` constructor establishes (source
lines 557-560). -/
def FutureWrapperBase.init {R : Type} : FWState R := ⟨Promise.fresh, false⟩

/-- `FutureWrapperBase::SetException` (source lines 580-584): resolves the
promise's error channel with a `PipelineException` wrapping the given
status. -/
def FutureWrapperBase.SetException {R : Type} (err : XRootDStatus)
    (p : Promise R) : Promise R :=
  p.setExn ⟨err⟩

/-- `FutureWrapperBase::~FutureWrapperBase` (source lines 567-571): if the
handler was never called, set the fixed
`XRootDStatus(stError, errPipelineFailed)` exception in the promise. -/
def FutureWrapperBase.dtor {R : Type} (s : FWState R) : FWState R :=
  if !s.called then
    let aborted : XRootDStatus := XRootDStatus.mk stError errPipelineFailed 0
    { s with prms := FutureWrapperBase.SetException aborted s.prms }
  else s

/-- Observable effects of one delivery to a `FutureWrapper`: the handler
state after `delete this` ran the base destructor, whether the success
path dereferenced a null payload pointer, and the outcome deletions. -/
structure FWDelivery (R : Type) where
  fw : FWState R
  nullDeref : Bool
  statusDeleted : Bool
  responseDeleted : Bool
  selfDeleted : Bool
deriving DecidableEq, Repr

/-- `FutureWrapper<R>::HandleResponse` (source lines 621-637): set
`called`; on an OK status move the typed payload into the promise (a null
pointer from `AnyObject::Get` would be dereferenced), otherwise
`SetException(*status)`; delete the status, the response and itself (the
base destructor runs with `called` already true). -/
def FutureWrapper.HandleResponse {R : Type} (s : FWState R)
    (status : XRootDStatus) (response : Option R) : FWDelivery R :=
  let s1 : FWState R := { s with called := true }
  let s2 : FWState R :=
    if status.IsOK then
      match response with
      | some r => { s1 with prms := s1.prms.setValue r }
      | none => s1
    else { s1 with prms := FutureWrapperBase.SetException status s1.prms }
  { fw := FutureWrapperBase.dtor s2
    nullDeref := status.IsOK && response.isNone
    statusDeleted := true
    responseDeleted := true
    selfDeleted := true }

/-- `FutureWrapper<void>::HandleResponse` (source lines 661-676): set
`called`; on an OK status set completion state with no value payload,
otherwise `SetException(*status)`; delete the status, the response and
itself. -/
def FutureWrapperVoid.HandleResponse (s : FWState Unit)
    (status : XRootDStatus) {α : Type} (_response : Option α) :
    FWDelivery Unit :=
  let s1 : FWState Unit := { s with called := true }
  let s2 : FWState Unit :=
    if status.IsOK then { s1 with prms := s1.prms.setValue () }
    else { s1 with prms := FutureWrapperBase.SetException status s1.prms }
  { fw := FutureWrapperBase.dtor s2
    nullDeref := false
    statusDeleted := true
    responseDeleted := true
    selfDeleted := true }

/-- C1: destroying a Future Bridge whose `called` flag is still false
resolves the linked promise's error channel with a `PipelineException`
wrapping the fixed `XRootDStatus(stError, errPipelineFailed)`, so a thread
waiting on the paired future observes a failure instead of blocking; the
generic state covers the void specialization, whose destructor is the
shared base destructor. -/
theorem futureBridge_dtor_abandonment_sets_pipeline_error {R : Type}
    (s : FWState R) (hcalled : s.called = false)
    (hpending : s.prms.state = .pending) :
    (FutureWrapperBase.dtor s).prms.state
      = .exn ⟨XRootDStatus.mk stError errPipelineFailed 0⟩ := by
  simp [FutureWrapperBase.dtor, FutureWrapperBase.SetException,
    Promise.setExn, hcalled, hpending]

/-- Closed witness for C1: destroying a freshly constructed void-response
bridge (never called, promise pending) resolves the promise with the
pipeline-failed exception. -/
theorem futureBridge_dtor_abandonment_witness :
    (FutureWrapperBase.init (R := Unit)).called = false
    ∧ (FutureWrapperBase.init (R := Unit)).prms.state = .pending
    ∧ (FutureWrapperBase.dtor (FutureWrapperBase.init (R := Unit))).prms.state
      = .exn ⟨XRootDStatus.mk stError errPipelineFailed 0⟩ :=
  ⟨rfl, rfl,
    futureBridge_dtor_abandonment_sets_pipeline_error
      FutureWrapperBase.init rfl rfl⟩

/-- C4: delivery to a Future Bridge with a success status moves the typed
payload into the linked promise (the void specialization sets completion
state with no payload); delivery with a failure status resolves the error
channel with a `PipelineException` wrapping that exact status (so error
code 7 is observed as code 7); in both cases the promise leaves `pending`
and the adapter deletes the outcome and itself. -/
theorem futureBridge_delivery_resolves_promise {R : Type} (s : FWState R)
    (sv : FWState Unit) (status : XRootDStatus) (r : R)
    (hp : s.prms.state = .pending) (hpv : sv.prms.state = .pending) :
    (status.IsOK = true →
      (FutureWrapper.HandleResponse s status (some r)).fw.prms.state
        = .value r
      ∧ (FutureWrapperVoid.HandleResponse sv status
          (none : Option Nat)).fw.prms.state = .value ())
    ∧ (status.IsOK = false → ∀ response : Option R,
      (FutureWrapper.HandleResponse s status response).fw.prms.state
        = .exn ⟨status⟩
      ∧ (FutureWrapperVoid.HandleResponse sv status
          (none : Option Nat)).fw.prms.state = .exn ⟨status⟩)
    ∧ (∀ response : Option R,
      (FutureWrapper.HandleResponse s status response).statusDeleted = true
      ∧ (FutureWrapper.HandleResponse s status response).responseDeleted
        = true
      ∧ (FutureWrapper.HandleResponse s status response).selfDeleted = true)
    ∧ (FutureWrapperVoid.HandleResponse sv status
        (none : Option Nat)).statusDeleted = true
    ∧ (FutureWrapperVoid.HandleResponse sv status
        (none : Option Nat)).responseDeleted = true
    ∧ (FutureWrapperVoid.HandleResponse sv status
        (none : Option Nat)).selfDeleted = true := by
  refine ⟨fun hok => ?_, fun hfail response => ?_,
    fun response => ⟨rfl, rfl, rfl⟩, rfl, rfl, rfl⟩
  · constructor <;>
      simp [FutureWrapper.HandleResponse, FutureWrapperVoid.HandleResponse,
        FutureWrapperBase.dtor, Promise.setValue, hok, hp, hpv]
  · constructor <;>
      simp [FutureWrapper.HandleResponse, FutureWrapperVoid.HandleResponse,
        FutureWrapperBase.dtor, FutureWrapperBase.SetException,
        Promise.setExn, hfail, hp, hpv]

/-- Closed witness for C4: a response-less bridge receiving a failure
outcome carrying code 7 resolves the future's error channel with code 7. -/
theorem futureBridge_delivery_witness :
    (XRootDStatus.mk stError 7 0).IsOK = false
    ∧ (FutureWrapperVoid.HandleResponse (FutureWrapperBase.init)
        (XRootDStatus.mk stError 7 0) (none : Option Nat)).fw.prms.state
      = .exn ⟨XRootDStatus.mk stError 7 0⟩ :=
  ⟨by decide,
    ((futureBridge_delivery_resolves_promise (R := Nat)
      FutureWrapperBase.init FutureWrapperBase.init
      (XRootDStatus.mk stError 7 0) 0 rfl rfl).2.1 (by decide)
      (none : Option Nat)).2⟩

/-! ## Dispatch Factory (`RespBase`, `Resp`) -/

/-- A caller-supplied value together with its static type, which is what
C++ overload resolution inspects when selecting among the `Create`
overloads of `RespBase` (source lines 686-743): a `ResponseHandler`
pointer or reference, a `ForwardingHandler` pointer or reference (the
exact-match overloads beat the base-class ones), or a
`std::future<Response>` handle.  The identifiers stand for the object
identities. -/
inductive HandlerArg where
  | respHandlerPtr (id : Nat)
  | respHandlerRef (id : Nat)
  | fwdHandlerPtr (id : Nat)
  | fwdHandlerRef (id : Nat)
  | futureHandle (fid : Nat)
deriving DecidableEq, Repr

/-- What the selected `Create` overload returns: the supplied
`ForwardingHandler` itself, a newly allocated `WrappingHandler` around the
supplied `ResponseHandler`, or a newly allocated `FutureWrapper` linked to
the supplied future. -/
inductive CreatedSink where
  | passthrough (id : Nat)
  | wrappingNew (wrapped : Nat)
  | futureWrapperNew (fid : Nat)
deriving DecidableEq, Repr

/-- `RespBase<Response>::Create`, one branch per overload (source lines
695-742): `ResponseHandler*` and `ResponseHandler&` build a
`WrappingHandler`; `ForwardingHandler*` and `ForwardingHandler&` are
returned as-is; `std::future<Response>&` builds a
`FutureWrapper<Response>`. -/
def RespBase.Create : HandlerArg → CreatedSink
  | .respHandlerPtr id => .wrappingNew id
  | .respHandlerRef id => .wrappingNew id
  | .fwdHandlerPtr id => .passthrough id
  | .fwdHandlerRef id => .passthrough id
  | .futureHandle fid => .futureWrapperNew fid

/-- `IsForwardingHandler<Hdlr>::value` (source lines 118-142): the
capability marker, true exactly when the static type derives from
`ForwardingHandler` (for both the plain and the pointer form). -/
def IsForwardingHandlerValue : HandlerArg → Bool
  | .fwdHandlerPtr _ => true
  | .fwdHandlerRef _ => true
  | _ => false

/-- C6: the factory passes any value that already satisfies the internal
Completion Sink capability (a `ForwardingHandler`, by pointer or by
reference) through unmodified; it wraps a plain `ResponseHandler` in a new
`WrappingHandler`; it bridges a `std::future<Response>` with a new
`FutureWrapper<Response>`; and a passthrough happens exactly for the
values carrying the capability marker, so exactly one adapter type is
selected for each supplied value. -/
theorem respBase_create_selects_one_adapter (id fid : Nat) :
    RespBase.Create (.fwdHandlerPtr id) = .passthrough id
    ∧ RespBase.Create (.fwdHandlerRef id) = .passthrough id
    ∧ RespBase.Create (.respHandlerPtr id) = .wrappingNew id
    ∧ RespBase.Create (.respHandlerRef id) = .wrappingNew id
    ∧ RespBase.Create (.futureHandle fid) = .futureWrapperNew fid
    ∧ (∀ a : HandlerArg,
        (∃ i, RespBase.Create a = .passthrough i)
          ↔ IsForwardingHandlerValue a = true) := by
  refine ⟨rfl, rfl, rfl, rfl, rfl, fun a => ?_⟩
  cases a <;> simp [RespBase.Create, IsForwardingHandlerValue]

/-! ## Theorems for the Forwarding Container -/

/-- Looking a key up is unaffected by filtering out the entries of a
different key. -/
theorem lookup_filterOutKey {β : Type} (es : List ((Nat × Int) × β))
    (k k2 : Nat × Int) (h : ¬k2 = k) :
    (es.filter (fun e => !(e.1 == k))).lookup k2 = es.lookup k2 := by
  induction es with
  | nil => rfl
  | cons e es ih =>
    obtain ⟨ek, ev⟩ := e
    by_cases hek : ek = k
    · subst hek
      have h1 : (k2 == ek) = false := by simpa using h
      simp [List.filter_cons, List.lookup_cons, h1, ih]
    · have h2 : (ek == k) = false := by simpa using hek
      cases hbe : (k2 == ek) <;>
        simp [List.filter_cons, List.lookup_cons, h2, hbe, ih]

/-- Overwriting semantics of `SetArg` at the key it sets. -/
theorem getArg_setArg_same (c : ArgsContainer) (t : Nat) (b : Int)
    (v : Nat) : (c.SetArg t b v).GetArg t b = .ok v := by
  simp [ArgsContainer.SetArg, ArgsContainer.GetArg, List.lookup]

/-- `SetArg` leaves lookups of every other (type, bucket) key unchanged. -/
theorem getArg_setArg_other (c : ArgsContainer) (t t2 : Nat) (b b2 : Int)
    (v : Nat) (h : ¬(t2, b2) = (t, b)) :
    (c.SetArg t b v).GetArg t2 b2 = c.GetArg t2 b2 := by
  simp only [ArgsContainer.SetArg, ArgsContainer.GetArg, List.lookup]
  rw [lookup_filterOutKey c.entries (t, b) (t2, b2) h]
  have hbeq : ((t2, b2) == (t, b)) = false := by
    simpa using h
  simp [hbeq]

/-- The container built by a sequence of `SetArg` operations on the fresh
empty container a pipeline run starts from. -/
def ArgsContainer.ofSets (ops : List ((Nat × Int) × Nat)) : ArgsContainer :=
  ops.foldl (fun c o => c.SetArg o.1.1 o.1.2 o.2) ArgsContainer.empty

/-- A key never touched by a sequence of sets looks up the same as in the
starting container. -/
theorem getArg_foldl_untouched (ops : List ((Nat × Int) × Nat))
    (c : ArgsContainer) (t2 : Nat) (b2 : Int)
    (h : ops.all (fun o => !(o.1 == (t2, b2))) = true) :
    (ops.foldl (fun c o => c.SetArg o.1.1 o.1.2 o.2) c).GetArg t2 b2
      = c.GetArg t2 b2 := by
  induction ops generalizing c with
  | nil => rfl
  | cons o ops ih =>
    simp only [List.all_cons, Bool.and_eq_true] at h
    have hne : ¬(t2, b2) = (o.1.1, o.1.2) := by
      intro hc
      rw [show o.1 = (o.1.1, o.1.2) from rfl, ← hc] at h
      simpa using h.1
    rw [List.foldl_cons, ih _ h.2, getArg_setArg_other c _ _ _ _ _ hne]

/-- C7: `set(T, bucket, v)` followed by `get(T, bucket)` on the same
container returns `v`; a `get` on a (type, bucket) key that no set of the
pipeline run ever touched fails with the missing-key error; and the
spec's scenario: stage A forwards integer 42 at bucket 1 and stage B's
context lookup of an integer at bucket 1 returns 42. -/
theorem forwardingContainer_set_get_roundtrip_missing_key
    (c : ArgsContainer) (t : Nat) (b : Int) (v : Nat)
    (ops : List ((Nat × Int) × Nat)) (t2 : Nat) (b2 : Int)
    (hnever : ops.all (fun o => !(o.1 == (t2, b2))) = true) :
    (c.SetArg t b v).GetArg t b = .ok v
    ∧ (ArgsContainer.ofSets ops).GetArg t2 b2 = .error .missingKey
    ∧ (ForwardingHandler.GetOperationContext
        (ForwardingHandler.FwdArg ArgsContainer.empty 0 42 1)).GetArg 0 1
      = .ok 42 := by
  refine ⟨getArg_setArg_same c t b v, ?_, ?_⟩
  · rw [ArgsContainer.ofSets, getArg_foldl_untouched ops _ t2 b2 hnever]
    rfl
  · simp [ForwardingHandler.GetOperationContext, ForwardingHandler.FwdArg,
      OperationContext.GetArg, getArg_setArg_same]

/-- Closed witness for C7: a run that stores 7 at (type 0, bucket 2) has
no value at (type 5, bucket 1), and the 42-at-bucket-1 scenario holds. -/
theorem forwardingContainer_witness :
    ([(((0 : Nat), (2 : Int)), (7 : Nat))].all
      (fun o => !(o.1 == ((5 : Nat), (1 : Int))))) = true
    ∧ (ArgsContainer.empty.SetArg 0 1 42).GetArg 0 1 = .ok 42
    ∧ (ArgsContainer.ofSets [(((0 : Nat), (2 : Int)), (7 : Nat))]).GetArg 5 1
      = .error .missingKey
    ∧ (ForwardingHandler.GetOperationContext
        (ForwardingHandler.FwdArg ArgsContainer.empty 0 42 1)).GetArg 0 1
      = .ok 42 := by
  have h := forwardingContainer_set_get_roundtrip_missing_key
    ArgsContainer.empty 0 1 42 [(((0 : Nat), (2 : Int)), (7 : Nat))] 5 1
    (by decide)
  exact ⟨by decide, h.1, h.2.1, h.2.2⟩
